import Mathlib

/-
  Verification of the two functions of src/main.py:

    def load_data():
        df = pd.DataFrame({"id": [1,2,3,4], "value": [10,20,30,40]})
        return df

    def query_data(df):
        con = duckdb.connect()
        con.register("t", df)
        result = con.execute("SELECT id, value, value*2 AS value2 FROM t
                              WHERE value >= 20 ORDER BY id DESC").df()
        return result

  A tabular dataset is modelled as an ordered list of named columns, each
  column a homogeneous sequence of values (integer or string).  The embedded
  query engine (duckdb) and the tabular container (pandas) are external
  collaborators; their behaviour on the one fixed query is modelled from the
  specification (section 4.2 and section 6 of the design).
-/

namespace PipDemo

/-- A single column of an in-memory tabular dataset: an ordered sequence of
values of one semantic type.  The repository only exercises integer columns;
a string alternative is included so that the non-numeric error case of the
query executor is representable. -/
inductive Col where
  | ints (xs : List Int)
  | strs (xs : List String)
deriving DecidableEq, Repr

/-- Number of entries (rows) of a column. -/
def Col.length : Col → Nat
  | .ints xs => xs.length
  | .strs xs => xs.length

/-- An in-memory tabular dataset: an ordered sequence of named columns. -/
structure DataFrame where
  cols : List (String × Col)
deriving DecidableEq, Repr

/-- Look up a column by name (first match, left to right). -/
def DataFrame.getCol (df : DataFrame) (name : String) : Option Col :=
  (df.cols.find? (fun c => c.1 == name)).map (fun c => c.2)

/-- The ordered list of column names of a dataset. -/
def DataFrame.colNames (df : DataFrame) : List String :=
  df.cols.map (fun c => c.1)

/-- load_data of src/main.py: the fixed two-column dataset
id = [1,2,3,4], value = [10,20,30,40]. -/
def load_data : DataFrame :=
  ⟨[("id", .ints [1, 2, 3, 4]), ("value", .ints [10, 20, 30, 40])]⟩

/-- Ordering used by the fixed query for integer ids: a row comes before
another when its id is greater or equal (ORDER BY id DESC). -/
def idDesc (a b : Int × Int) : Prop := b.1 ≤ a.1

instance : DecidableRel idDesc := fun a b =>
  inferInstanceAs (Decidable (b.1 ≤ a.1))

instance : IsTotal (Int × Int) idDesc := ⟨fun a b => le_total b.1 a.1⟩

instance : IsTrans (Int × Int) idDesc :=
  ⟨fun _ _ _ h1 h2 => le_trans h2 h1⟩

/-- Ordering used by the fixed query for string ids (ORDER BY id DESC). -/
def idDescStr (a b : String × Int) : Prop := b.1 ≤ a.1

instance : DecidableRel idDescStr := fun a b =>
  inferInstanceAs (Decidable (b.1 ≤ a.1))

instance : IsTotal (String × Int) idDescStr := ⟨fun a b => le_total b.1 a.1⟩

instance : IsTrans (String × Int) idDescStr :=
  ⟨fun _ _ _ h1 h2 => le_trans h2 h1⟩

/-- Materialize the result table from the retained, ordered (id, value) rows:
columns id, value, value2 in that order, with value2 = value * 2. -/
def mkOut (rows : List (Int × Int)) : DataFrame :=
  ⟨[("id", .ints (rows.map (fun r => r.1))),
    ("value", .ints (rows.map (fun r => r.2))),
    ("value2", .ints (rows.map (fun r => r.2 * 2)))]⟩

/-- Materialize the result table when the id column is a string column. -/
def mkOutStr (rows : List (String × Int)) : DataFrame :=
  ⟨[("id", .strs (rows.map (fun r => r.1))),
    ("value", .ints (rows.map (fun r => r.2))),
    ("value2", .ints (rows.map (fun r => r.2 * 2)))]⟩

/-- Modelled from the spec: the embedded analytical engine's execution of the
fixed SQL statement
  SELECT id, value, value*2 AS value2 FROM t WHERE value >= 20 ORDER BY id DESC
over a registered dataset.  The engine itself (duckdb) is an external
collaborator, not part of src/; per section 4.2 of the design it fails with a
type/schema error when the dataset lacks a column named id or value or when
the value column is not numeric, and otherwise filters to rows with
value >= 20, derives value2 = value * 2, and orders by id descending. -/
def runFixedQuery (df : DataFrame) : Except String DataFrame :=
  match df.getCol "id" with
  | none => .error "Binder Error: referenced column id not found"
  | some idCol =>
    match df.getCol "value" with
    | none => .error "Binder Error: referenced column value not found"
    | some valCol =>
      match valCol with
      | .strs _ => .error "Type Error: column value is not numeric"
      | .ints vals =>
        match idCol with
        | .ints ids =>
            .ok (mkOut (List.insertionSort idDesc
              ((ids.zip vals).filter (fun r => decide (20 ≤ r.2)))))
        | .strs ids =>
            .ok (mkOutStr (List.insertionSort idDescStr
              ((ids.zip vals).filter (fun r => decide (20 ≤ r.2)))))

/-- Modelled from the spec: an ephemeral in-memory engine context holding the
relations registered so far (duckdb.connect() state). -/
structure Connection where
  tables : List (String × DataFrame)

/-- duckdb.connect(): a fresh, empty in-memory engine context. -/
def connect : Connection := ⟨[]⟩

/-- con.register(name, df): make a dataset queryable under a relation name
inside this context only. -/
def Connection.registerTable (con : Connection) (name : String)
    (df : DataFrame) : Connection :=
  ⟨(name, df) :: con.tables⟩

/-- Look up a registered relation by name. -/
def Connection.getTable (con : Connection) (name : String) : Option DataFrame :=
  (con.tables.find? (fun t => t.1 == name)).map (fun t => t.2)

/-- con.execute(fixed SQL).df(): resolve the relation t in this context and
run the fixed query over it. -/
def Connection.executeFixedQuery (con : Connection) : Except String DataFrame :=
  match con.getTable "t" with
  | none => .error "Catalog Error: table t does not exist"
  | some df => runFixedQuery df

/-- query_data of src/main.py: open a fresh in-memory engine context,
register the input dataset as t, execute the fixed query, return the
result.  A raised engine error propagates to the caller as an error value. -/
def query_data (df : DataFrame) : Except String DataFrame :=
  ((connect.registerTable "t" df).executeFixedQuery)

/-- The shorthand for the filtered row list of the fixed query. -/
def retained (ids vals : List Int) : List (Int × Int) :=
  (ids.zip vals).filter (fun r => decide (20 ≤ r.2))

/-- Helper: a call to query_data is exactly the engine run of the fixed query
on the freshly registered dataset. -/
theorem query_data_eq_run (df : DataFrame) : query_data df = runFixedQuery df :=
  rfl

/-- Helper: the id column of a materialized result. -/
theorem mkOut_getCol_id (s : List (Int × Int)) :
    (mkOut s).getCol "id" = some (.ints (s.map (fun r => r.1))) := rfl

/-- Helper: the value column of a materialized result. -/
theorem mkOut_getCol_value (s : List (Int × Int)) :
    (mkOut s).getCol "value" = some (.ints (s.map (fun r => r.2))) := rfl

/-- Helper: the value2 column of a materialized result. -/
theorem mkOut_getCol_value2 (s : List (Int × Int)) :
    (mkOut s).getCol "value2" = some (.ints (s.map (fun r => r.2 * 2))) := rfl

/-- Helper: the value column of a string-id materialized result. -/
theorem mkOutStr_getCol_value (s : List (String × Int)) :
    (mkOutStr s).getCol "value" = some (.ints (s.map (fun r => r.2))) := rfl

/-- Helper: the value2 column of a string-id materialized result. -/
theorem mkOutStr_getCol_value2 (s : List (String × Int)) :
    (mkOutStr s).getCol "value2" = some (.ints (s.map (fun r => r.2 * 2))) :=
  rfl

/-- Helper: inversion of a successful query_data call: the input had an id
column and an integer value column, and the output is the materialization of
the filtered, ordered rows. -/
theorem query_data_ok_inv {df out : DataFrame} (h : query_data df = .ok out) :
    (∃ ids vals : List Int, df.getCol "id" = some (.ints ids) ∧
      df.getCol "value" = some (.ints vals) ∧
      out = mkOut (List.insertionSort idDesc (retained ids vals))) ∨
    (∃ (ids : List String) (vals : List Int),
      df.getCol "id" = some (.strs ids) ∧
      df.getCol "value" = some (.ints vals) ∧
      out = mkOutStr (List.insertionSort idDescStr
        ((ids.zip vals).filter (fun r => decide (20 ≤ r.2))))) := by
  rw [query_data_eq_run, runFixedQuery.eq_def] at h
  rcases hid : df.getCol "id" with _ | idCol <;> rw [hid] at h
  · cases h
  rcases hval : df.getCol "value" with _ | valCol <;> rw [hval] at h
  · cases h
  rcases valCol with vals | ss
  · rcases idCol with ids | ids
    · injection h with h
      exact Or.inl ⟨ids, vals, rfl, rfl, h.symm⟩
    · injection h with h
      exact Or.inr ⟨ids, vals, rfl, rfl, h.symm⟩
  · cases h

/-- C1: query_data returns exactly the input rows whose value is at least 20,
each exactly once (a permutation of the filtered rows), extended with
value2 = value * 2, ordered by id descending, with columns id, value, value2
in that order; on the fixed dataset the result is the three rows
(4,40,80), (3,30,60), (2,20,40) in that order; and the output row count never
exceeds the input row count. -/
theorem query_data_characterization (df : DataFrame) (ids vals : List Int)
    (hid : df.getCol "id" = some (.ints ids))
    (hval : df.getCol "value" = some (.ints vals))
    (hlen : ids.length = vals.length) :
    ∃ s : List (Int × Int),
      query_data df = .ok (mkOut s) ∧
      s.Perm (retained ids vals) ∧
      List.Sorted (fun a b : Int => b ≤ a) (s.map Prod.fst) ∧
      (mkOut s).colNames = ["id", "value", "value2"] ∧
      s.length ≤ ids.length ∧
      query_data load_data =
        .ok ⟨[("id", .ints [4, 3, 2]), ("value", .ints [40, 30, 20]),
              ("value2", .ints [80, 60, 40])]⟩ := by
  refine ⟨List.insertionSort idDesc (retained ids vals), ?_,
    List.perm_insertionSort _ _, ?_, rfl, ?_, rfl⟩
  · rw [query_data_eq_run, runFixedQuery.eq_def, hid, hval]; rfl
  · have hs := List.sorted_insertionSort idDesc (retained ids vals)
    exact List.pairwise_map.mpr hs
  · have h1 := (List.perm_insertionSort idDesc (retained ids vals)).length_eq
    have h2 : (retained ids vals).length ≤ (ids.zip vals).length :=
      List.length_filter_le _ _
    have h3 : (ids.zip vals).length = ids.length := by
      rw [List.length_zip, hlen]; exact min_self _
    omega

/-- Witness for C1: the characterization applied to the fixed dataset. -/
theorem query_data_characterization_witness :
    ∃ s : List (Int × Int),
      query_data load_data = .ok (mkOut s) ∧
      s.Perm (retained [1, 2, 3, 4] [10, 20, 30, 40]) ∧
      List.Sorted (fun a b : Int => b ≤ a) (s.map Prod.fst) ∧
      (mkOut s).colNames = ["id", "value", "value2"] ∧
      s.length ≤ ([1, 2, 3, 4] : List Int).length ∧
      query_data load_data =
        .ok ⟨[("id", .ints [4, 3, 2]), ("value", .ints [40, 30, 20]),
              ("value2", .ints [80, 60, 40])]⟩ :=
  query_data_characterization load_data [1, 2, 3, 4] [10, 20, 30, 40]
    rfl rfl rfl

/-- C2: load_data takes no input and returns the fixed dataset with rows
(1,10), (2,20), (3,30), (4,40) and columns in the order id, value; as a pure
value it is the same on every call, with no side effects and no error
conditions. -/
theorem load_data_fixed :
    load_data = ⟨[("id", .ints [1, 2, 3, 4]),
                  ("value", .ints [10, 20, 30, 40])]⟩ ∧
    load_data.colNames = ["id", "value"] :=
  ⟨rfl, rfl⟩

/-- C3: for every input on which query_data succeeds, every entry of the
output value column is at least 20. -/
theorem query_data_values_ge_20 (df out : DataFrame)
    (h : query_data df = .ok out) :
    ∃ vs : List Int, out.getCol "value" = some (.ints vs) ∧
      ∀ v ∈ vs, 20 ≤ v := by
  rcases query_data_ok_inv h with ⟨ids, vals, _, _, hout⟩ |
    ⟨ids, vals, _, _, hout⟩ <;> subst hout
  · refine ⟨_, mkOut_getCol_value _, ?_⟩
    intro v hv
    rcases List.mem_map.mp hv with ⟨r, hr, hrv⟩
    have hr2 := (List.perm_insertionSort idDesc (retained ids vals)).mem_iff.mp hr
    simp only [retained, List.mem_filter, decide_eq_true_eq] at hr2
    exact hrv ▸ hr2.2
  · refine ⟨_, mkOutStr_getCol_value _, ?_⟩
    intro v hv
    rcases List.mem_map.mp hv with ⟨r, hr, hrv⟩
    have hr2 := (List.perm_insertionSort idDescStr
      ((ids.zip vals).filter (fun r => decide (20 ≤ r.2)))).mem_iff.mp hr
    simp only [List.mem_filter, decide_eq_true_eq] at hr2
    exact hrv ▸ hr2.2

/-- Witness for C3: on the fixed dataset, the value column of the result is
[40, 30, 20] and every entry is at least 20. -/
theorem query_data_values_ge_20_witness :
    ∃ vs : List Int,
      (⟨[("id", .ints [4, 3, 2]), ("value", .ints [40, 30, 20]),
         ("value2", .ints [80, 60, 40])]⟩ : DataFrame).getCol "value" =
        some (.ints vs) ∧ ∀ v ∈ vs, 20 ≤ v :=
  query_data_values_ge_20 load_data
    ⟨[("id", .ints [4, 3, 2]), ("value", .ints [40, 30, 20]),
      ("value2", .ints [80, 60, 40])]⟩ rfl

/-- C4: for every input on which query_data succeeds, the output value2
column is entrywise exactly twice the output value column; arithmetic is
exact integer arithmetic. -/
theorem query_data_value2_doubles (df out : DataFrame)
    (h : query_data df = .ok out) :
    ∃ vs : List Int, out.getCol "value" = some (.ints vs) ∧
      out.getCol "value2" = some (.ints (vs.map (fun v => v * 2))) := by
  rcases query_data_ok_inv h with ⟨ids, vals, _, _, hout⟩ |
    ⟨ids, vals, _, _, hout⟩ <;> subst hout
  · exact ⟨_, mkOut_getCol_value _,
      by rw [mkOut_getCol_value2, List.map_map]; rfl⟩
  · exact ⟨_, mkOutStr_getCol_value _,
      by rw [mkOutStr_getCol_value2, List.map_map]; rfl⟩

/-- Witness for C4: on the fixed dataset, value = [40, 30, 20] and
value2 = [80, 60, 40] = map double value. -/
theorem query_data_value2_doubles_witness :
    ∃ vs : List Int,
      (⟨[("id", .ints [4, 3, 2]), ("value", .ints [40, 30, 20]),
         ("value2", .ints [80, 60, 40])]⟩ : DataFrame).getCol "value" =
        some (.ints vs) ∧
      (⟨[("id", .ints [4, 3, 2]), ("value", .ints [40, 30, 20]),
         ("value2", .ints [80, 60, 40])]⟩ : DataFrame).getCol "value2" =
        some (.ints (vs.map (fun v => v * 2))) :=
  query_data_value2_doubles load_data
    ⟨[("id", .ints [4, 3, 2]), ("value", .ints [40, 30, 20]),
      ("value2", .ints [80, 60, 40])]⟩ rfl

/-- C5: for every input with an integer id column on which query_data
succeeds, the output id column is sorted in descending order; and on an input
whose rows all sit exactly at the filter boundary value = 20, all rows are
retained and ordered by id descending. -/
theorem query_data_sorted_desc (df out : DataFrame) (ids vals : List Int)
    (hid : df.getCol "id" = some (.ints ids))
    (_hval : df.getCol "value" = some (.ints vals))
    (h : query_data df = .ok out) :
    (∃ is : List Int, out.getCol "id" = some (.ints is) ∧
      List.Sorted (fun a b : Int => b ≤ a) is) ∧
    query_data ⟨[("id", .ints [1, 2]), ("value", .ints [20, 20])]⟩ =
      .ok ⟨[("id", .ints [2, 1]), ("value", .ints [20, 20]),
            ("value2", .ints [40, 40])]⟩ := by
  refine ⟨?_, rfl⟩
  rcases query_data_ok_inv h with ⟨ids', vals', hid', hval', hout⟩ |
    ⟨ids', vals', hid', hval', hout⟩
  · subst hout
    exact ⟨_, mkOut_getCol_id _,
      List.pairwise_map.mpr (List.sorted_insertionSort idDesc _)⟩
  · rw [hid] at hid'
    simp at hid'

/-- Witness for C5: applied to the fixed dataset; its result id column
[4, 3, 2] is sorted descending, and the boundary-tie input keeps both rows. -/
theorem query_data_sorted_desc_witness :
    (∃ is : List Int,
      (⟨[("id", .ints [4, 3, 2]), ("value", .ints [40, 30, 20]),
         ("value2", .ints [80, 60, 40])]⟩ : DataFrame).getCol "id" =
        some (.ints is) ∧
      List.Sorted (fun a b : Int => b ≤ a) is) ∧
    query_data ⟨[("id", .ints [1, 2]), ("value", .ints [20, 20])]⟩ =
      .ok ⟨[("id", .ints [2, 1]), ("value", .ints [20, 20]),
            ("value2", .ints [40, 40])]⟩ :=
  query_data_sorted_desc load_data
    ⟨[("id", .ints [4, 3, 2]), ("value", .ints [40, 30, 20]),
      ("value2", .ints [80, 60, 40])]⟩ [1, 2, 3, 4] [10, 20, 30, 40]
    rfl rfl rfl

/-- C6: on an input with columns id and value whose rows all have value
below 20 (in particular on a zero-row input), query_data succeeds and returns
a dataset with zero rows in each of its three columns id, value, value2. -/
theorem query_data_empty_result (df : DataFrame) (idCol : Col)
    (vals : List Int)
    (hid : df.getCol "id" = some idCol)
    (hval : df.getCol "value" = some (.ints vals))
    (hlow : ∀ v ∈ vals, v < 20) :
    (∃ out : DataFrame, query_data df = .ok out ∧
      out.colNames = ["id", "value", "value2"] ∧
      ∀ c ∈ out.cols, c.2.length = 0) ∧
    query_data ⟨[("id", .ints [1, 2]), ("value", .ints [10, 15])]⟩ =
      .ok ⟨[("id", .ints []), ("value", .ints []), ("value2", .ints [])]⟩ := by
  refine ⟨?_, rfl⟩
  rcases idCol with ids | ids
  · have hfil : retained ids vals = [] := by
      apply List.filter_eq_nil_iff.mpr
      intro r hr
      have h2 := hlow r.2 (List.of_mem_zip hr).2
      simp only [decide_eq_true_eq]
      omega
    refine ⟨mkOut [], ?_, rfl, ?_⟩
    · rw [query_data_eq_run, runFixedQuery.eq_def, hid, hval]
      show Except.ok (mkOut (List.insertionSort idDesc (retained ids vals))) =
        Except.ok (mkOut [])
      rw [hfil]; rfl
    · intro c hc
      fin_cases hc <;> rfl
  · have hfil : (ids.zip vals).filter (fun r => decide (20 ≤ r.2)) = [] := by
      apply List.filter_eq_nil_iff.mpr
      intro r hr
      have h2 := hlow r.2 (List.of_mem_zip hr).2
      simp only [decide_eq_true_eq]
      omega
    refine ⟨mkOutStr [], ?_, rfl, ?_⟩
    · rw [query_data_eq_run, runFixedQuery.eq_def, hid, hval]
      show Except.ok (mkOutStr (List.insertionSort idDescStr
        ((ids.zip vals).filter (fun r => decide (20 ≤ r.2))))) =
        Except.ok (mkOutStr [])
      rw [hfil]; rfl
    · intro c hc
      fin_cases hc <;> rfl

/-- Witness for C6: the all-below-threshold input (1,10), (2,15) yields an
empty three-column result. -/
theorem query_data_empty_result_witness :
    (∃ out : DataFrame,
      query_data ⟨[("id", .ints [1, 2]), ("value", .ints [10, 15])]⟩ =
        .ok out ∧
      out.colNames = ["id", "value", "value2"] ∧
      ∀ c ∈ out.cols, c.2.length = 0) ∧
    query_data ⟨[("id", .ints [1, 2]), ("value", .ints [10, 15])]⟩ =
      .ok ⟨[("id", .ints []), ("value", .ints []), ("value2", .ints [])]⟩ :=
  query_data_empty_result
    ⟨[("id", .ints [1, 2]), ("value", .ints [10, 15])]⟩
    (.ints [1, 2]) [10, 15] rfl rfl (by decide)

/-- C7: query_data fails with a schema/type error whenever the input lacks a
column named id or a column named value, or its value column is not numeric;
and every call is atomic: it yields either a complete result table or an
error, never a partial result. -/
theorem query_data_schema_error (df : DataFrame)
    (h : df.getCol "id" = none ∨ df.getCol "value" = none ∨
      ∃ ss : List String, df.getCol "value" = some (.strs ss)) :
    (∃ e : String, query_data df = .error e) ∧
    ∀ df' : DataFrame, (∃ out, query_data df' = .ok out) ∨
      (∃ e, query_data df' = .error e) := by
  constructor
  · rw [query_data_eq_run, runFixedQuery.eq_def]
    rcases h with hid | hval | ⟨ss, hval⟩
    · rw [hid]
      exact ⟨_, rfl⟩
    · cases hid : df.getCol "id" with
      | none => exact ⟨_, rfl⟩
      | some idCol => rw [hval]; exact ⟨_, rfl⟩
    · cases hid : df.getCol "id" with
      | none => exact ⟨_, rfl⟩
      | some idCol => rw [hval]; exact ⟨_, rfl⟩
  · intro df'
    cases hq : query_data df' with
    | error e => exact Or.inr ⟨e, rfl⟩
    | ok o => exact Or.inl ⟨o, rfl⟩

/-- Witness for C7: the dataset with no columns at all makes query_data fail,
and every call on any dataset is all-or-nothing. -/
theorem query_data_schema_error_witness :
    (∃ e : String, query_data ⟨[]⟩ = .error e) ∧
    ∀ df' : DataFrame, (∃ out, query_data df' = .ok out) ∨
      (∃ e, query_data df' = .error e) :=
  query_data_schema_error ⟨[]⟩ (Or.inl rfl)

/-- C9: query_data is deterministic and carries no state between calls:
the registration and the fixed query executed in any two engine contexts
(in particular the fresh context each call creates and discards) give
identical results, equal to query_data of the input. -/
theorem query_data_deterministic (df : DataFrame) (con1 con2 : Connection) :
    (con1.registerTable "t" df).executeFixedQuery =
      (con2.registerTable "t" df).executeFixedQuery ∧
    (con1.registerTable "t" df).executeFixedQuery = query_data df :=
  ⟨rfl, rfl⟩

/-- C10: for every input dataset containing a column named id and an integer
column named value, wherever they sit and whatever other columns accompany
them, query_data succeeds, the output has exactly the columns id, value,
value2, and the result is the same as on the dataset consisting of only the
id and value columns: extra columns affect neither retention, nor value2,
nor the order. -/
theorem query_data_extra_columns (df : DataFrame) (idc : Col)
    (vals : List Int)
    (hid : df.getCol "id" = some idc)
    (hval : df.getCol "value" = some (.ints vals)) :
    (∃ out : DataFrame, query_data df = .ok out ∧
      out.colNames = ["id", "value", "value2"]) ∧
    query_data df = query_data ⟨[("id", idc), ("value", .ints vals)]⟩ := by
  constructor
  · cases idc with
    | ints ids =>
      refine ⟨mkOut (List.insertionSort idDesc (retained ids vals)), ?_, rfl⟩
      rw [query_data_eq_run, runFixedQuery.eq_def, hid, hval]
      rfl
    | strs ids =>
      refine ⟨mkOutStr (List.insertionSort idDescStr
        ((ids.zip vals).filter (fun r => decide (20 ≤ r.2)))), ?_, rfl⟩
      rw [query_data_eq_run, runFixedQuery.eq_def, hid, hval]
  · rw [query_data_eq_run, query_data_eq_run, runFixedQuery.eq_def,
      runFixedQuery.eq_def, hid, hval]
    rfl

/-- Witness for C10: a dataset whose value column precedes its id column,
with an extra string column between them, gives the same result as the plain
two-column dataset and has the three-column output schema. -/
theorem query_data_extra_columns_witness :
    (∃ out : DataFrame,
      query_data ⟨[("value", Col.ints [20, 5]), ("a", Col.strs ["x", "y"]),
          ("id", Col.ints [1, 2])]⟩ = .ok out ∧
      out.colNames = ["id", "value", "value2"]) ∧
    query_data ⟨[("value", Col.ints [20, 5]), ("a", Col.strs ["x", "y"]),
        ("id", Col.ints [1, 2])]⟩ =
      query_data ⟨[("id", Col.ints [1, 2]), ("value", Col.ints [20, 5])]⟩ :=
  query_data_extra_columns
    ⟨[("value", Col.ints [20, 5]), ("a", Col.strs ["x", "y"]),
      ("id", Col.ints [1, 2])]⟩ (Col.ints [1, 2]) [20, 5] rfl rfl

end PipDemo
